import Mathlib

/-!
# Verification of the bare-xdiff binding (`src/binding.c`)

A shallow embedding of the bridge layer between a JavaScript host and the
xdiff comparison engine.  The bridge code (option parsing, buffer copying,
the background work functions, the completion step, and the synchronous
paths) is translated from `src/binding.c`.  The comparison engine
(`xdl_diff` / `xdl_merge`) is an external collaborator and is kept abstract
as a parameter of every pipeline.  Host-value accessors (`js_typeof`,
`js_get_named_property`, `js_get_value_*`) are modelled as total functions
on a small inductive type of JavaScript values.
-/

namespace BareXdiff

/-- A byte buffer: the contents of a `Uint8Array` view or of a bridge-owned
allocation.  Lengths are implicit in the list. -/
abbrev Bytes := List Nat

/-! ## JavaScript values and host accessors -/

/-- The fragment of JavaScript values the option parsers can observe through
the host accessors: primitive type tags, primitive payloads, and named
object properties. -/
inductive JSVal where
  | null
  | undefined
  | boolean (b : Bool)
  | number (n : Int)
  | str (s : String)
  | obj (fields : List (String × JSVal))
deriving Repr

/-- Modelled from the spec: host-value accessors are opaque;
`js_get_named_property` reads a named property, yielding `undefined` when
the key is absent or the value is not an object. -/
def getProp : JSVal → String → JSVal
  | .obj fields, k =>
    match fields.lookup k with
    | some v => v
    | none => .undefined
  | _, _ => .undefined

/-- Modelled from the spec: host-value accessors are opaque;
`js_get_value_int32` reads a number's integer value. -/
def js_get_value_int32 (n : Int) : Int := n

/-! ## xdiff flag and mode constants (values from the engine's header) -/

def XDF_IGNORE_WHITESPACE : Nat := 2
def XDF_IGNORE_WHITESPACE_CHANGE : Nat := 4
def XDF_IGNORE_WHITESPACE_AT_EOL : Nat := 8
def XDF_IGNORE_BLANK_LINES : Nat := 128
def XDF_PATIENCE_DIFF : Nat := 16384
def XDF_HISTOGRAM_DIFF : Nat := 32768

def XDL_MERGE_MINIMAL : Int := 0
def XDL_MERGE_EAGER : Int := 1
def XDL_MERGE_ZEALOUS : Int := 2
def XDL_MERGE_ZEALOUS_ALNUM : Int := 3
def XDL_MERGE_FAVOR_OURS : Int := 1
def XDL_MERGE_FAVOR_THEIRS : Int := 2
def XDL_MERGE_FAVOR_UNION : Int := 3
def XDL_MERGE_DIFF3 : Int := 1
def XDL_MERGE_ZEALOUS_DIFF3 : Int := 2

/-! ## Option parsing (`parse_diff_options`, `parse_merge_options`) -/

/-- One boolean flag field of `parse_diff_options`: the flag is set exactly
when the property is a boolean with value `true`; any other runtime type
leaves the flags untouched. -/
def flagIf (v : JSVal) (flag : Nat) : Nat :=
  match v with
  | .boolean true => flag
  | _ => 0

/-- The `algorithm` field of `parse_diff_options`: a string matched against
the closed set; unmatched strings and non-strings contribute nothing. -/
def algoFlag (v : JSVal) : Nat :=
  match v with
  | .str s =>
    if s = "patience" then XDF_PATIENCE_DIFF
    else if s = "histogram" then XDF_HISTOGRAM_DIFF
    else 0
  | _ => 0

/-- `parse_diff_options` from `src/binding.c`: null/undefined configuration
yields no flags; otherwise each recognised field is read only if its runtime
type matches, and contributes its flag bit. -/
def parse_diff_options (options : JSVal) : Nat :=
  match options with
  | .null => 0
  | .undefined => 0
  | _ =>
    flagIf (getProp options "ignoreWhitespace") XDF_IGNORE_WHITESPACE |||
    flagIf (getProp options "ignoreWhitespaceChange") XDF_IGNORE_WHITESPACE_CHANGE |||
    flagIf (getProp options "ignoreWhitespaceAtEol") XDF_IGNORE_WHITESPACE_AT_EOL |||
    flagIf (getProp options "ignoreBlankLines") XDF_IGNORE_BLANK_LINES |||
    algoFlag (getProp options "algorithm")

/-- The merge parameter record handed to the engine (`xmparam_t` fields the
binding sets). -/
structure MergeOpts where
  level : Int
  favor : Int
  style : Int
  marker_size : Int
deriving DecidableEq, Repr

/-- The defaults `parse_merge_options` starts from. -/
def defaultMergeOpts : MergeOpts :=
  { level := XDL_MERGE_MINIMAL, favor := 0, style := 0, marker_size := 7 }

/-- The `level` field: strings from the closed set select a level, anything
else keeps the default. -/
def levelOf (v : JSVal) : Int :=
  match v with
  | .str s =>
    if s = "eager" then XDL_MERGE_EAGER
    else if s = "zealous" then XDL_MERGE_ZEALOUS
    else if s = "zealous_alnum" then XDL_MERGE_ZEALOUS_ALNUM
    else XDL_MERGE_MINIMAL
  | _ => XDL_MERGE_MINIMAL

/-- The `favor` field. -/
def favorOf (v : JSVal) : Int :=
  match v with
  | .str s =>
    if s = "ours" then XDL_MERGE_FAVOR_OURS
    else if s = "theirs" then XDL_MERGE_FAVOR_THEIRS
    else if s = "union" then XDL_MERGE_FAVOR_UNION
    else 0
  | _ => 0

/-- The `style` field. -/
def styleOf (v : JSVal) : Int :=
  match v with
  | .str s =>
    if s = "diff3" then XDL_MERGE_DIFF3
    else if s = "zealous_diff3" then XDL_MERGE_ZEALOUS_DIFF3
    else 0
  | _ => 0

/-- The `markerSize` field: read only when the property is a number, and
stored only when positive; otherwise the default 7 is kept. -/
def markerSizeOf (v : JSVal) : Int :=
  match v with
  | .number n =>
    if 0 < js_get_value_int32 n then js_get_value_int32 n else 7
  | _ => 7

/-- `parse_merge_options` from `src/binding.c`. -/
def parse_merge_options (options : JSVal) : MergeOpts :=
  match options with
  | .null => defaultMergeOpts
  | .undefined => defaultMergeOpts
  | _ =>
    { level := levelOf (getProp options "level"),
      favor := favorOf (getProp options "favor"),
      style := styleOf (getProp options "style"),
      marker_size := markerSizeOf (getProp options "markerSize") }

/-- Flags used by a call site given an optional options argument: absent
options mean no flags (`diff_flags = 0`). -/
def diffFlagsOfOpt (options : Option JSVal) : Nat :=
  match options with
  | some o => parse_diff_options o
  | none => 0

/-- Merge options used by a call site given an optional options argument:
absent options mean the defaults. -/
def mergeOptsOfOpt (options : Option JSVal) : MergeOpts :=
  match options with
  | some o => parse_merge_options o
  | none => defaultMergeOpts

/-! ## The comparison engine (external collaborator, kept abstract)

`xdl_diff` takes two buffers, a flag word and the context-line count, emits
output chunks through the `out_line` sink, and returns an integer code
(negative on failure).  `xdl_merge` takes three buffers plus the merge
parameter record, writes one output buffer, and returns a non-negative
conflict count or a negative failure code. -/

structure Engine where
  xdl_diff : Bytes → Bytes → Nat → Nat → Int × List Bytes
  xdl_merge : Bytes → Bytes → Bytes → MergeOpts → Int × Bytes

/-- `xdiff_out_line` accumulation: the growable output buffer ends up
holding the concatenation of all emitted chunks (the capacity-doubling
policy is a performance detail and does not change the contents). -/
def concatChunks (chunks : List Bytes) : Bytes :=
  chunks.foldl (fun acc c => acc ++ c) []

/-! ## The task record (`bare_xdiff_request_t`) -/

/-- The per-call request struct.  `buf3` is `none` exactly when the struct's
third buffer pointer is `NULL` (diff requests never set it; `calloc` zeroes
it).  `result = none` models a `NULL` result pointer. -/
structure Request where
  buf1 : Bytes
  buf2 : Bytes
  buf3 : Option Bytes
  diff_flags : Nat
  merge_level : Int
  merge_favor : Int
  merge_style : Int
  merge_marker_size : Int
  result : Option Bytes
  conflict_count : Int
  error_code : Int

/-- A freshly `calloc`ed request: every field zero / null. -/
def zeroRequest : Request :=
  { buf1 := [], buf2 := [], buf3 := none, diff_flags := 0,
    merge_level := 0, merge_favor := 0, merge_style := 0,
    merge_marker_size := 0, result := none, conflict_count := 0,
    error_code := 0 }

/-- The `xmparam_t` record `bare_xdiff_merge_work` builds from the request
fields. -/
def mergeParamsOf (r : Request) : MergeOpts :=
  { level := r.merge_level, favor := r.merge_favor, style := r.merge_style,
    marker_size := r.merge_marker_size }

/-! ## Submission (`bare_xdiff_diff`, `bare_xdiff_merge`)

Buffer copying is modelled from the spec: `copyIn` is total (the engine's
allocator is not part of `src/`; the spec's Buffer Ownership Transfer
treats the copy as always completing). -/

/-- Build the request for an async diff call: flags parsed on the calling
thread, both inputs deep-copied, `buf3` left `NULL`. -/
def bare_xdiff_diff_submit (a b : Bytes) (options : Option JSVal) : Request :=
  { zeroRequest with
    buf1 := a, buf2 := b,
    diff_flags := diffFlagsOfOpt options }

/-- Build the request for an async merge call: merge options parsed on the
calling thread, all three inputs deep-copied into `buf1`/`buf2`/`buf3`. -/
def bare_xdiff_merge_submit (anc ours theirs : Bytes) (options : Option JSVal) :
    Request :=
  let mo := mergeOptsOfOpt options
  { zeroRequest with
    buf1 := anc, buf2 := ours, buf3 := some theirs,
    merge_level := mo.level, merge_favor := mo.favor,
    merge_style := mo.style, merge_marker_size := mo.marker_size }

/-! ## Background work functions -/

/-- `bare_xdiff_diff_work`: run the engine's two-file compare over the
request's copied buffers with the parsed flags and a fixed 3-line context
window.  Negative engine return: the partial output is freed and the code is
recorded; otherwise the accumulated chunks become the result and
`error_code = 0`. -/
def bare_xdiff_diff_work (E : Engine) (r : Request) : Request :=
  let res := E.xdl_diff r.buf1 r.buf2 r.diff_flags 3
  if res.1 < 0 then
    { r with error_code := res.1 }
  else
    { r with result := some (concatChunks res.2), error_code := 0 }

/-- `bare_xdiff_merge_work`: run the engine's three-file merge.  Negative
return: the code is recorded and `conflict_count` set to 0.  Non-negative
return: the engine's output buffer is copied into the request's result, the
return value (the conflict count) is stored, and `error_code = 0` — a merge
with conflicts is a success. -/
def bare_xdiff_merge_work (E : Engine) (r : Request) : Request :=
  let res := E.xdl_merge r.buf1 r.buf2 (r.buf3.getD []) (mergeParamsOf r)
  if res.1 < 0 then
    { r with error_code := res.1, conflict_count := 0 }
  else
    { r with result := some res.2, error_code := 0, conflict_count := res.1 }

/-! ## Completion marshaling (`bare_xdiff_after`) -/

/-- The host value handed to the callback's second slot on success. -/
inductive JSResult where
  | buffer (bytes : Bytes)
  | mergeObj (conflict : Bool) (output : Bytes)
deriving DecidableEq, Repr

/-- The callback invocation: either `callback(error, null)` with the fixed
message, or `callback(null, result)`. -/
inductive CallbackInv where
  | failure (message : String)
  | success (result : JSResult)
deriving DecidableEq, Repr

/-- The value `bare_xdiff_after` passes to the callback: a failure value
when dispatch failed (`status ≠ 0`) or the work recorded a negative
`error_code`; otherwise a `{conflict, output}` object exactly when the
request's third buffer pointer is non-null, and a plain buffer otherwise.
The result bytes are copied into a fresh host-owned value. -/
def bare_xdiff_after (r : Request) (status : Int) : CallbackInv :=
  if status ≠ 0 ∨ r.error_code < 0 then
    .failure "Operation failed"
  else
    match r.buf3 with
    | some _ => .success (.mergeObj (decide (0 < r.conflict_count)) (r.result.getD []))
    | none => .success (.buffer (r.result.getD []))

/-- Does the callback receive the merge-shaped `{conflict, output}`
object? -/
def isMergeShaped : CallbackInv → Bool
  | .success (.mergeObj _ _) => true
  | _ => false

/-! ## Resource release trace (tail of `bare_xdiff_after`) -/

/-- Observable events of the completion step, in program order. -/
inductive Event where
  | callbackCall (inv : CallbackInv)
  | freeBuf1
  | freeBuf2
  | freeBuf3
  | freeResult
  | dropCtxRef
  | dropCallbackRef
  | finishTeardown
  | freeRequest
deriving DecidableEq, Repr

/-- Is this event a callback invocation? -/
def isCallbackEvent : Event → Bool
  | .callbackCall _ => true
  | _ => false

/-- The cleanup sequence after the callback returns: free both input
buffers, the third buffer and the result when present, drop the two host
references, signal the teardown guard, free the request. -/
def taskReleaseEvents (r : Request) : List Event :=
  [Event.freeBuf1, Event.freeBuf2] ++
  (if r.buf3.isSome then [Event.freeBuf3] else []) ++
  (if r.result.isSome then [Event.freeResult] else []) ++
  [Event.dropCtxRef, Event.dropCallbackRef, Event.finishTeardown,
   Event.freeRequest]

/-- The full event trace of `bare_xdiff_after`: one callback invocation (its
reported outcome `cbReportsFailure` is ignored — the source discards
`js_call_function`'s return value), then unconditionally the cleanup
sequence. -/
def bare_xdiff_after_trace (r : Request) (status : Int)
    (cbReportsFailure : Bool) : List Event :=
  let _ := cbReportsFailure
  Event.callbackCall (bare_xdiff_after r status) :: taskReleaseEvents r

/-- Does this event list release every resource the request owns: both
input buffers, the third buffer and the result buffer when present, both
host references, and the teardown guard, and free the request record? -/
def releasesAll (r : Request) (evs : List Event) : Bool :=
  evs.contains Event.freeBuf1 && evs.contains Event.freeBuf2 &&
  (!r.buf3.isSome || evs.contains Event.freeBuf3) &&
  (!r.result.isSome || evs.contains Event.freeResult) &&
  evs.contains Event.dropCtxRef && evs.contains Event.dropCallbackRef &&
  evs.contains Event.finishTeardown && evs.contains Event.freeRequest

/-! ## Synchronous paths (`bare_xdiff_diff_sync`, `bare_xdiff_merge_sync`) -/

/-- The `{conflict, output}` object `mergeSync` returns. -/
structure MergeResult where
  conflict : Bool
  output : Bytes
deriving DecidableEq, Repr

/-- `bare_xdiff_diff_sync`: same parser, same engine call with a 3-line
context window, on the calling thread; a negative engine return raises
(`Except.error`), otherwise the accumulated output is returned. -/
def bare_xdiff_diff_sync (E : Engine) (a b : Bytes) (options : Option JSVal) :
    Except String Bytes :=
  let flags := diffFlagsOfOpt options
  let res := E.xdl_diff a b flags 3
  if res.1 < 0 then
    .error "xdl_diff failed"
  else
    .ok (concatChunks res.2)

/-- `bare_xdiff_merge_sync`: same parser, same engine call, on the calling
thread; a negative engine return raises, otherwise
`{conflict := ret > 0, output := result}` is returned. -/
def bare_xdiff_merge_sync (E : Engine) (anc ours theirs : Bytes)
    (options : Option JSVal) : Except String MergeResult :=
  let mo := mergeOptsOfOpt options
  let res := E.xdl_merge anc ours theirs mo
  if res.1 < 0 then
    .error "xdl_merge failed"
  else
    .ok { conflict := decide (0 < res.1), output := res.2 }

/-! ## End-to-end async pipelines -/

/-- What the callback of an async diff call receives: submit, background
work, completion step with libuv status `status`. -/
def asyncDiffOutcome (E : Engine) (a b : Bytes) (options : Option JSVal)
    (status : Int) : CallbackInv :=
  bare_xdiff_after (bare_xdiff_diff_work E (bare_xdiff_diff_submit a b options)) status

/-- What the callback of an async merge call receives. -/
def asyncMergeOutcome (E : Engine) (anc ours theirs : Bytes)
    (options : Option JSVal) (status : Int) : CallbackInv :=
  bare_xdiff_after
    (bare_xdiff_merge_work E (bare_xdiff_merge_submit anc ours theirs options))
    status

/-! ## Host memory model (for the deep-copy invariant)

Submission reads the host's typed-array views (`data + offset`, `len`) out
of host memory and `memcpy`s them into bridge-owned buffers before the
submitting call returns.  Afterwards the host may mutate or reclaim its
storage arbitrarily; the background work only ever touches the copies. -/

/-- Host memory: a total map from addresses to byte values. -/
abbrev Heap := Nat → Nat

/-- A host typed-array view: backing-store pointer, view offset, length
(the triple `js_get_typedarray_info` yields). -/
structure HostView where
  base : Nat
  off : Nat
  len : Nat

/-- Read `len` bytes of host memory starting at `start`. -/
def readBytes (hp : Heap) (start len : Nat) : Bytes :=
  (List.range len).map (fun i => hp (start + i))

/-- `memcpy(dst, (char *) data + offset, len)`: the deep copy taken at
submission time. -/
def copyIn (hp : Heap) (v : HostView) : Bytes :=
  readBytes hp (v.base + v.off) v.len

/-- An async diff call as seen from host memory: the inputs are copied out
of the heap `hp` at submission time; then the host applies an arbitrary
mutation `mutate` to its memory; the background work and completion step
run on the copies alone. -/
def asyncDiffRunFromHost (E : Engine) (hp : Heap) (v1 v2 : HostView)
    (options : Option JSVal) (mutate : Heap → Heap) (status : Int) :
    CallbackInv :=
  let req := bare_xdiff_diff_submit (copyIn hp v1) (copyIn hp v2) options
  let _post := mutate hp
  bare_xdiff_after (bare_xdiff_diff_work E req) status

/-- An async merge call as seen from host memory. -/
def asyncMergeRunFromHost (E : Engine) (hp : Heap) (v1 v2 v3 : HostView)
    (options : Option JSVal) (mutate : Heap → Heap) (status : Int) :
    CallbackInv :=
  let req := bare_xdiff_merge_submit (copyIn hp v1) (copyIn hp v2)
    (copyIn hp v3) options
  let _post := mutate hp
  bare_xdiff_after (bare_xdiff_merge_work E req) status

/-! ## Removing a configuration field

`eraseKey fields k` is the configuration object with field `k` omitted
entirely; used to state that malformed fields behave as if omitted. -/

/-- Remove every binding of key `k` from an object's field list. -/
def eraseKey (fields : List (String × JSVal)) (k : String) :
    List (String × JSVal) :=
  fields.filter (fun p => p.1 != k)

/-- Is this value not a boolean (so a boolean-typed option field ignores
it)? -/
def notBoolean : JSVal → Bool
  | .boolean _ => false
  | _ => true

/-- Fields of a diff configuration that `parse_diff_options` ignores: a
mistyped flag field, a mistyped or unrecognised `algorithm`, and any
unknown key (which the parser never reads). -/
def diffFieldIgnored (k : String) (v : JSVal) : Bool :=
  if k = "ignoreWhitespace" ∨ k = "ignoreWhitespaceChange" ∨
     k = "ignoreWhitespaceAtEol" ∨ k = "ignoreBlankLines" then
    notBoolean v
  else if k = "algorithm" then
    match v with
    | .str s => decide (s ≠ "patience" ∧ s ≠ "histogram")
    | _ => true
  else true

/-- Fields of a merge configuration that `parse_merge_options` ignores:
mistyped or unrecognised enumeration fields, a mistyped or non-positive
`markerSize`, and any unknown key. -/
def mergeFieldIgnored (k : String) (v : JSVal) : Bool :=
  if k = "level" then
    match v with
    | .str s => decide (s ≠ "eager" ∧ s ≠ "zealous" ∧ s ≠ "zealous_alnum")
    | _ => true
  else if k = "favor" then
    match v with
    | .str s => decide (s ≠ "ours" ∧ s ≠ "theirs" ∧ s ≠ "union")
    | _ => true
  else if k = "style" then
    match v with
    | .str s => decide (s ≠ "diff3" ∧ s ≠ "zealous_diff3")
    | _ => true
  else if k = "markerSize" then
    match v with
    | .number n => decide (js_get_value_int32 n ≤ 0)
    | _ => true
  else true

/-! ## Concrete engines for evaluating theorems on closed inputs -/

/-- A concrete engine: diff emits its two inputs as chunks and succeeds;
merge reports `theirs.length` conflicts and outputs the concatenation. -/
def witnessEngine : Engine :=
  { xdl_diff := fun a b _ _ => (0, [a, b]),
    xdl_merge := fun anc ours theirs _ =>
      (Int.ofNat theirs.length, anc ++ ours ++ theirs) }

/-- A concrete engine whose entry points always fail with code -5. -/
def failingEngine : Engine :=
  { xdl_diff := fun _ _ _ _ => (-5, []),
    xdl_merge := fun _ _ _ _ => (-5, []) }

/-! ## Helper lemmas about field removal -/

theorem lookup_eraseKey_self (fields : List (String × JSVal)) (k : String) :
    (eraseKey fields k).lookup k = none := by
  induction fields with
  | nil => rfl
  | cons p t ih =>
    by_cases hp : p.1 = k
    · simpa [eraseKey, List.filter_cons, hp] using ih
    · have hb : (p.1 != k) = true := bne_iff_ne.mpr hp
      have hk : (k == p.1) = false := beq_eq_false_iff_ne.mpr (Ne.symm hp)
      simpa [eraseKey, List.filter_cons, hb, List.lookup, hk] using ih

theorem lookup_eraseKey_ne (fields : List (String × JSVal)) (k k' : String)
    (h : k' ≠ k) :
    (eraseKey fields k).lookup k' = fields.lookup k' := by
  induction fields with
  | nil => rfl
  | cons p t ih =>
    by_cases hp : p.1 = k
    · have hk : (k' == p.1) = false := by
        rw [hp]
        exact beq_eq_false_iff_ne.mpr h
      have hk2 : (k' == k) = false := beq_eq_false_iff_ne.mpr h
      simpa [eraseKey, List.filter_cons, hp, List.lookup, hk, hk2] using ih
    · have hb : (p.1 != k) = true := bne_iff_ne.mpr hp
      by_cases hq : k' = p.1
      · simp [eraseKey, List.filter_cons, hb, List.lookup, hq]
      · have hk : (k' == p.1) = false := beq_eq_false_iff_ne.mpr hq
        simpa [eraseKey, List.filter_cons, hb, List.lookup, hk] using ih

theorem getProp_eraseKey_self (fields : List (String × JSVal)) (k : String) :
    getProp (.obj (eraseKey fields k)) k = .undefined := by
  simp [getProp, lookup_eraseKey_self]

theorem getProp_eraseKey_ne (fields : List (String × JSVal)) (k k' : String)
    (h : k' ≠ k) :
    getProp (.obj (eraseKey fields k)) k' = getProp (.obj fields) k' := by
  simp [getProp, lookup_eraseKey_ne fields k k' h]

/-! ## Unfolding lemmas for the parsers on objects -/

theorem parse_diff_options_obj (fs : List (String × JSVal)) :
    parse_diff_options (JSVal.obj fs) =
      (flagIf (getProp (JSVal.obj fs) "ignoreWhitespace") XDF_IGNORE_WHITESPACE |||
       flagIf (getProp (JSVal.obj fs) "ignoreWhitespaceChange") XDF_IGNORE_WHITESPACE_CHANGE |||
       flagIf (getProp (JSVal.obj fs) "ignoreWhitespaceAtEol") XDF_IGNORE_WHITESPACE_AT_EOL |||
       flagIf (getProp (JSVal.obj fs) "ignoreBlankLines") XDF_IGNORE_BLANK_LINES |||
       algoFlag (getProp (JSVal.obj fs) "algorithm")) := rfl

theorem parse_merge_options_obj (fs : List (String × JSVal)) :
    parse_merge_options (JSVal.obj fs) =
      { level := levelOf (getProp (JSVal.obj fs) "level"),
        favor := favorOf (getProp (JSVal.obj fs) "favor"),
        style := styleOf (getProp (JSVal.obj fs) "style"),
        marker_size := markerSizeOf (getProp (JSVal.obj fs) "markerSize") } := rfl

/-! ## Reduction lemmas for the ignored-field predicates at each key -/

theorem diffFieldIgnored_iw (v : JSVal) :
    diffFieldIgnored "ignoreWhitespace" v = notBoolean v := rfl

theorem diffFieldIgnored_iwc (v : JSVal) :
    diffFieldIgnored "ignoreWhitespaceChange" v = notBoolean v := rfl

theorem diffFieldIgnored_iwe (v : JSVal) :
    diffFieldIgnored "ignoreWhitespaceAtEol" v = notBoolean v := rfl

theorem diffFieldIgnored_ibl (v : JSVal) :
    diffFieldIgnored "ignoreBlankLines" v = notBoolean v := rfl

theorem diffFieldIgnored_algo (v : JSVal) :
    diffFieldIgnored "algorithm" v =
      (match v with
       | JSVal.str s => decide (s ≠ "patience" ∧ s ≠ "histogram")
       | _ => true) := rfl

theorem mergeFieldIgnored_level (v : JSVal) :
    mergeFieldIgnored "level" v =
      (match v with
       | JSVal.str s => decide (s ≠ "eager" ∧ s ≠ "zealous" ∧ s ≠ "zealous_alnum")
       | _ => true) := rfl

theorem mergeFieldIgnored_favor (v : JSVal) :
    mergeFieldIgnored "favor" v =
      (match v with
       | JSVal.str s => decide (s ≠ "ours" ∧ s ≠ "theirs" ∧ s ≠ "union")
       | _ => true) := rfl

theorem mergeFieldIgnored_style (v : JSVal) :
    mergeFieldIgnored "style" v =
      (match v with
       | JSVal.str s => decide (s ≠ "diff3" ∧ s ≠ "zealous_diff3")
       | _ => true) := rfl

theorem mergeFieldIgnored_marker (v : JSVal) :
    mergeFieldIgnored "markerSize" v =
      (match v with
       | JSVal.number n => decide (js_get_value_int32 n ≤ 0)
       | _ => true) := rfl

/-! ## An ignored field contributes the default -/

theorem flagIf_eq_zero (v : JSVal) (flag : Nat) (h : notBoolean v = true) :
    flagIf v flag = 0 := by
  cases v with
  | boolean b => simp [notBoolean] at h
  | null => rfl
  | undefined => rfl
  | number n => rfl
  | str s => rfl
  | obj fs => rfl

theorem algoFlag_eq_zero (v : JSVal)
    (h : (match v with
          | JSVal.str s => decide (s ≠ "patience" ∧ s ≠ "histogram")
          | _ => true) = true) :
    algoFlag v = 0 := by
  cases v with
  | str s => simp_all [algoFlag]
  | null => rfl
  | undefined => rfl
  | boolean b => rfl
  | number n => rfl
  | obj fs => rfl

theorem levelOf_eq_default (v : JSVal)
    (h : (match v with
          | JSVal.str s => decide (s ≠ "eager" ∧ s ≠ "zealous" ∧ s ≠ "zealous_alnum")
          | _ => true) = true) :
    levelOf v = XDL_MERGE_MINIMAL := by
  cases v with
  | str s => simp_all [levelOf]
  | null => rfl
  | undefined => rfl
  | boolean b => rfl
  | number n => rfl
  | obj fs => rfl

theorem favorOf_eq_default (v : JSVal)
    (h : (match v with
          | JSVal.str s => decide (s ≠ "ours" ∧ s ≠ "theirs" ∧ s ≠ "union")
          | _ => true) = true) :
    favorOf v = 0 := by
  cases v with
  | str s => simp_all [favorOf]
  | null => rfl
  | undefined => rfl
  | boolean b => rfl
  | number n => rfl
  | obj fs => rfl

theorem styleOf_eq_default (v : JSVal)
    (h : (match v with
          | JSVal.str s => decide (s ≠ "diff3" ∧ s ≠ "zealous_diff3")
          | _ => true) = true) :
    styleOf v = 0 := by
  cases v with
  | str s => simp_all [styleOf]
  | null => rfl
  | undefined => rfl
  | boolean b => rfl
  | number n => rfl
  | obj fs => rfl

theorem markerSizeOf_eq_default (v : JSVal)
    (h : (match v with
          | JSVal.number n => decide (js_get_value_int32 n ≤ 0)
          | _ => true) = true) :
    markerSizeOf v = 7 := by
  cases v with
  | number n =>
    have hn : ¬ (0 < js_get_value_int32 n) := by
      simp [js_get_value_int32] at h ⊢
      omega
    simp [markerSizeOf, hn]
  | null => rfl
  | undefined => rfl
  | boolean b => rfl
  | str s => rfl
  | obj fs => rfl

/-! ## Field removal does not change the parse of ignored fields -/

theorem parse_diff_options_eraseKey (fs : List (String × JSVal)) (k : String)
    (h : diffFieldIgnored k (getProp (JSVal.obj fs) k) = true) :
    parse_diff_options (JSVal.obj fs) =
      parse_diff_options (JSVal.obj (eraseKey fs k)) := by
  rw [parse_diff_options_obj, parse_diff_options_obj]
  by_cases h1 : k = "ignoreWhitespace"
  · subst h1
    rw [diffFieldIgnored_iw] at h
    rw [getProp_eraseKey_self,
        getProp_eraseKey_ne fs _ "ignoreWhitespaceChange" (by decide),
        getProp_eraseKey_ne fs _ "ignoreWhitespaceAtEol" (by decide),
        getProp_eraseKey_ne fs _ "ignoreBlankLines" (by decide),
        getProp_eraseKey_ne fs _ "algorithm" (by decide),
        flagIf_eq_zero _ _ h]
    rfl
  by_cases h2 : k = "ignoreWhitespaceChange"
  · subst h2
    rw [diffFieldIgnored_iwc] at h
    rw [getProp_eraseKey_self,
        getProp_eraseKey_ne fs _ "ignoreWhitespace" (by decide),
        getProp_eraseKey_ne fs _ "ignoreWhitespaceAtEol" (by decide),
        getProp_eraseKey_ne fs _ "ignoreBlankLines" (by decide),
        getProp_eraseKey_ne fs _ "algorithm" (by decide),
        flagIf_eq_zero _ _ h]
    rfl
  by_cases h3 : k = "ignoreWhitespaceAtEol"
  · subst h3
    rw [diffFieldIgnored_iwe] at h
    rw [getProp_eraseKey_self,
        getProp_eraseKey_ne fs _ "ignoreWhitespace" (by decide),
        getProp_eraseKey_ne fs _ "ignoreWhitespaceChange" (by decide),
        getProp_eraseKey_ne fs _ "ignoreBlankLines" (by decide),
        getProp_eraseKey_ne fs _ "algorithm" (by decide),
        flagIf_eq_zero _ _ h]
    rfl
  by_cases h4 : k = "ignoreBlankLines"
  · subst h4
    rw [diffFieldIgnored_ibl] at h
    rw [getProp_eraseKey_self,
        getProp_eraseKey_ne fs _ "ignoreWhitespace" (by decide),
        getProp_eraseKey_ne fs _ "ignoreWhitespaceChange" (by decide),
        getProp_eraseKey_ne fs _ "ignoreWhitespaceAtEol" (by decide),
        getProp_eraseKey_ne fs _ "algorithm" (by decide),
        flagIf_eq_zero _ _ h]
    rfl
  by_cases h5 : k = "algorithm"
  · subst h5
    rw [diffFieldIgnored_algo] at h
    rw [getProp_eraseKey_self,
        getProp_eraseKey_ne fs _ "ignoreWhitespace" (by decide),
        getProp_eraseKey_ne fs _ "ignoreWhitespaceChange" (by decide),
        getProp_eraseKey_ne fs _ "ignoreWhitespaceAtEol" (by decide),
        getProp_eraseKey_ne fs _ "ignoreBlankLines" (by decide),
        algoFlag_eq_zero _ h]
    rfl
  · rw [getProp_eraseKey_ne fs _ "ignoreWhitespace" (Ne.symm h1),
        getProp_eraseKey_ne fs _ "ignoreWhitespaceChange" (Ne.symm h2),
        getProp_eraseKey_ne fs _ "ignoreWhitespaceAtEol" (Ne.symm h3),
        getProp_eraseKey_ne fs _ "ignoreBlankLines" (Ne.symm h4),
        getProp_eraseKey_ne fs _ "algorithm" (Ne.symm h5)]

theorem parse_merge_options_eraseKey (fs : List (String × JSVal)) (k : String)
    (h : mergeFieldIgnored k (getProp (JSVal.obj fs) k) = true) :
    parse_merge_options (JSVal.obj fs) =
      parse_merge_options (JSVal.obj (eraseKey fs k)) := by
  rw [parse_merge_options_obj, parse_merge_options_obj]
  by_cases h1 : k = "level"
  · subst h1
    rw [mergeFieldIgnored_level] at h
    rw [getProp_eraseKey_self,
        getProp_eraseKey_ne fs _ "favor" (by decide),
        getProp_eraseKey_ne fs _ "style" (by decide),
        getProp_eraseKey_ne fs _ "markerSize" (by decide),
        levelOf_eq_default _ h]
    rfl
  by_cases h2 : k = "favor"
  · subst h2
    rw [mergeFieldIgnored_favor] at h
    rw [getProp_eraseKey_self,
        getProp_eraseKey_ne fs _ "level" (by decide),
        getProp_eraseKey_ne fs _ "style" (by decide),
        getProp_eraseKey_ne fs _ "markerSize" (by decide),
        favorOf_eq_default _ h]
    rfl
  by_cases h3 : k = "style"
  · subst h3
    rw [mergeFieldIgnored_style] at h
    rw [getProp_eraseKey_self,
        getProp_eraseKey_ne fs _ "level" (by decide),
        getProp_eraseKey_ne fs _ "favor" (by decide),
        getProp_eraseKey_ne fs _ "markerSize" (by decide),
        styleOf_eq_default _ h]
    rfl
  by_cases h4 : k = "markerSize"
  · subst h4
    rw [mergeFieldIgnored_marker] at h
    rw [getProp_eraseKey_self,
        getProp_eraseKey_ne fs _ "level" (by decide),
        getProp_eraseKey_ne fs _ "favor" (by decide),
        getProp_eraseKey_ne fs _ "style" (by decide),
        markerSizeOf_eq_default _ h]
    rfl
  · rw [getProp_eraseKey_ne fs _ "level" (Ne.symm h1),
        getProp_eraseKey_ne fs _ "favor" (Ne.symm h2),
        getProp_eraseKey_ne fs _ "style" (Ne.symm h3),
        getProp_eraseKey_ne fs _ "markerSize" (Ne.symm h4)]

/-! ## Claim theorems -/

/-- C1: for every pair of input byte buffers and every options value, the
asynchronous diff path and the synchronous diffSync path, given identical
inputs and options, produce byte-identical output: for every output buffer
`buf`, the sync call returns `buf` if and only if the async pipeline (with a
successful dispatch) delivers `callback(null, buf)`.  Both paths invoke the
same engine compare with the flags of the shared option parser and a 3-line
context window. -/
theorem c1_diff_sync_async_byte_identical (E : Engine) (a b : Bytes)
    (options : Option JSVal) (buf : Bytes) :
    bare_xdiff_diff_sync E a b options = Except.ok buf ↔
      asyncDiffOutcome E a b options 0 =
        CallbackInv.success (JSResult.buffer buf) := by
  by_cases hc : (E.xdl_diff a b (diffFlagsOfOpt options) 3).1 < 0
  · simp [bare_xdiff_diff_sync, asyncDiffOutcome, bare_xdiff_diff_work,
      bare_xdiff_diff_submit, bare_xdiff_after, zeroRequest, hc]
  · simp [bare_xdiff_diff_sync, asyncDiffOutcome, bare_xdiff_diff_work,
      bare_xdiff_diff_submit, bare_xdiff_after, zeroRequest, hc]

/-- C2: for every triple of input byte buffers and every options value, the
asynchronous merge path and the synchronous mergeSync path with identical
options agree: the sync call returns `{conflict := c, output := out}` if and
only if the async pipeline (successful dispatch) delivers
`callback(null, {conflict := c, output := out})`; moreover on a
non-negative engine return the stored `conflict_count` is that return, so
the reported flag is `conflictCount > 0` in both call styles. -/
theorem c2_merge_sync_async_byte_identical (E : Engine)
    (anc ours theirs : Bytes) (options : Option JSVal) (c : Bool)
    (out : Bytes) :
    (bare_xdiff_merge_sync E anc ours theirs options =
        Except.ok { conflict := c, output := out } ↔
      asyncMergeOutcome E anc ours theirs options 0 =
        CallbackInv.success (JSResult.mergeObj c out)) ∧
    (0 ≤ (E.xdl_merge anc ours theirs (mergeOptsOfOpt options)).1 →
      (bare_xdiff_merge_work E
          (bare_xdiff_merge_submit anc ours theirs options)).conflict_count =
        (E.xdl_merge anc ours theirs (mergeOptsOfOpt options)).1) := by
  constructor
  · by_cases hc : (E.xdl_merge anc ours theirs (mergeOptsOfOpt options)).1 < 0
    · simp [bare_xdiff_merge_sync, asyncMergeOutcome, bare_xdiff_merge_work,
        bare_xdiff_merge_submit, bare_xdiff_after, mergeParamsOf,
        zeroRequest, hc]
    · simp [bare_xdiff_merge_sync, asyncMergeOutcome, bare_xdiff_merge_work,
        bare_xdiff_merge_submit, bare_xdiff_after, mergeParamsOf,
        zeroRequest, hc, MergeResult.mk.injEq, and_comm]
  · intro hnn
    have hc : ¬ (E.xdl_merge anc ours theirs (mergeOptsOfOpt options)).1 < 0 := by
      omega
    simp [bare_xdiff_merge_work, bare_xdiff_merge_submit, mergeParamsOf,
      zeroRequest, hc]

/-- C2 witness: a concrete engine, inputs and options instantiating the
equivalence and the conflict-count clause. -/
theorem c2_merge_sync_async_byte_identical_witness :
    (0 ≤ (witnessEngine.xdl_merge [1] [2] [3] (mergeOptsOfOpt none)).1) ∧
    (bare_xdiff_merge_work witnessEngine
        (bare_xdiff_merge_submit [1] [2] [3] none)).conflict_count =
      (witnessEngine.xdl_merge [1] [2] [3] (mergeOptsOfOpt none)).1 :=
  ⟨by decide,
   (c2_merge_sync_async_byte_identical witnessEngine [1] [2] [3] none false
      []).2 (by decide)⟩

/-- C3: after the merge work function runs, a negative engine return is
recorded in `error_code` (with `conflict_count` zeroed), while a
non-negative return — the conflict count — is stored in `conflict_count`
with `error_code = 0` and the engine's output copied into the result: a
merge with conflicts is a success, not a failure. -/
theorem c3_merge_work_conflicts_not_error (E : Engine) (r : Request)
    (code : Int) (out : Bytes)
    (he : E.xdl_merge r.buf1 r.buf2 (r.buf3.getD []) (mergeParamsOf r) =
      (code, out)) :
    (code < 0 →
      (bare_xdiff_merge_work E r).error_code = code ∧
      (bare_xdiff_merge_work E r).conflict_count = 0) ∧
    (0 ≤ code →
      (bare_xdiff_merge_work E r).error_code = 0 ∧
      (bare_xdiff_merge_work E r).conflict_count = code ∧
      (bare_xdiff_merge_work E r).result = some out) := by
  constructor
  · intro hneg
    simp [bare_xdiff_merge_work, he, hneg]
  · intro hnn
    have hc : ¬ code < 0 := by omega
    simp [bare_xdiff_merge_work, he, hc]

/-- C3 witness: the conflict-count branch evaluated on a concrete engine
returning 2 conflicts, and the failure branch on an engine returning -5. -/
theorem c3_merge_work_conflicts_not_error_witness :
    ((bare_xdiff_merge_work witnessEngine zeroRequest).error_code = 0 ∧
     (bare_xdiff_merge_work witnessEngine zeroRequest).conflict_count = 0 ∧
     (bare_xdiff_merge_work witnessEngine zeroRequest).result = some []) ∧
    ((bare_xdiff_merge_work failingEngine zeroRequest).error_code = -5 ∧
     (bare_xdiff_merge_work failingEngine zeroRequest).conflict_count = 0) :=
  ⟨(c3_merge_work_conflicts_not_error witnessEngine zeroRequest 0 []
      (by decide)).2 (by decide),
   (c3_merge_work_conflicts_not_error failingEngine zeroRequest (-5) []
      (by decide)).1 (by decide)⟩

/-- C4: the completion step invokes `callback(error, null)` with the fixed
message "Operation failed" exactly when dispatch failed (`status ≠ 0`) or
the recorded `error_code` is negative; otherwise it invokes
`callback(null, result)` where the result is the concatenated output buffer
for a diff task and `{conflict := conflictCount > 0, output}` for a merge
task. -/
theorem c4_after_error_and_result_shape (E : Engine)
    (a b anc ours theirs : Bytes) (dopts mopts : Option JSVal)
    (status : Int) :
    asyncDiffOutcome E a b dopts status =
      (if status ≠ 0 ∨ (E.xdl_diff a b (diffFlagsOfOpt dopts) 3).1 < 0 then
        CallbackInv.failure "Operation failed"
      else
        CallbackInv.success (JSResult.buffer
          (concatChunks (E.xdl_diff a b (diffFlagsOfOpt dopts) 3).2))) ∧
    asyncMergeOutcome E anc ours theirs mopts status =
      (if status ≠ 0 ∨
          (E.xdl_merge anc ours theirs (mergeOptsOfOpt mopts)).1 < 0 then
        CallbackInv.failure "Operation failed"
      else
        CallbackInv.success (JSResult.mergeObj
          (decide (0 < (E.xdl_merge anc ours theirs (mergeOptsOfOpt mopts)).1))
          (E.xdl_merge anc ours theirs (mergeOptsOfOpt mopts)).2)) := by
  constructor
  · by_cases hs : status = 0
    · by_cases hc : (E.xdl_diff a b (diffFlagsOfOpt dopts) 3).1 < 0
      · simp [asyncDiffOutcome, bare_xdiff_diff_work, bare_xdiff_diff_submit,
          bare_xdiff_after, zeroRequest, hs, hc]
      · simp [asyncDiffOutcome, bare_xdiff_diff_work, bare_xdiff_diff_submit,
          bare_xdiff_after, zeroRequest, hs, hc]
    · by_cases hc : (E.xdl_diff a b (diffFlagsOfOpt dopts) 3).1 < 0
      · simp [asyncDiffOutcome, bare_xdiff_diff_work, bare_xdiff_diff_submit,
          bare_xdiff_after, zeroRequest, hs, hc]
      · simp [asyncDiffOutcome, bare_xdiff_diff_work, bare_xdiff_diff_submit,
          bare_xdiff_after, zeroRequest, hs, hc]
  · by_cases hs : status = 0
    · by_cases hc :
        (E.xdl_merge anc ours theirs (mergeOptsOfOpt mopts)).1 < 0
      · simp [asyncMergeOutcome, bare_xdiff_merge_work,
          bare_xdiff_merge_submit, bare_xdiff_after, mergeParamsOf,
          zeroRequest, hs, hc]
      · simp [asyncMergeOutcome, bare_xdiff_merge_work,
          bare_xdiff_merge_submit, bare_xdiff_after, mergeParamsOf,
          zeroRequest, hs, hc]
    · by_cases hc :
        (E.xdl_merge anc ours theirs (mergeOptsOfOpt mopts)).1 < 0
      · simp [asyncMergeOutcome, bare_xdiff_merge_work,
          bare_xdiff_merge_submit, bare_xdiff_after, mergeParamsOf,
          zeroRequest, hs, hc]
      · simp [asyncMergeOutcome, bare_xdiff_merge_work,
          bare_xdiff_merge_submit, bare_xdiff_after, mergeParamsOf,
          zeroRequest, hs, hc]

/-- C5: the completion step's event trace invokes the callback exactly
once, as its first action, and then — unconditionally, for every status,
error code, and regardless of whether the callback invocation itself
reports a failure — performs the release sequence, which frees both input
buffers, the third buffer and the result buffer when present, drops the
callback/context references, and signals the teardown guard. -/
theorem c5_callback_once_release_always (r : Request) (status : Int)
    (cbFail : Bool) :
    (bare_xdiff_after_trace r status cbFail).countP isCallbackEvent = 1 ∧
    bare_xdiff_after_trace r status cbFail =
      Event.callbackCall (bare_xdiff_after r status) :: taskReleaseEvents r ∧
    (taskReleaseEvents r).countP isCallbackEvent = 0 ∧
    releasesAll r (taskReleaseEvents r) = true ∧
    bare_xdiff_after_trace r status true =
      bare_xdiff_after_trace r status false := by
  obtain ⟨b1, b2, b3, df, ml, mf, ms, mm, res, cc, ec⟩ := r
  cases b3 <;> cases res <;> exact ⟨rfl, rfl, rfl, rfl, rfl⟩

/-- C6: the synchronous paths raise a failure at the call site exactly when
the engine entry point returns a negative code, and for non-negative
returns hand the result back directly without raising. -/
theorem c6_sync_raises_iff_engine_fails (E : Engine)
    (a b anc ours theirs : Bytes) (dopts mopts : Option JSVal) :
    (bare_xdiff_diff_sync E a b dopts = Except.error "xdl_diff failed" ↔
      (E.xdl_diff a b (diffFlagsOfOpt dopts) 3).1 < 0) ∧
    (0 ≤ (E.xdl_diff a b (diffFlagsOfOpt dopts) 3).1 →
      bare_xdiff_diff_sync E a b dopts =
        Except.ok (concatChunks (E.xdl_diff a b (diffFlagsOfOpt dopts) 3).2)) ∧
    (bare_xdiff_merge_sync E anc ours theirs mopts =
        Except.error "xdl_merge failed" ↔
      (E.xdl_merge anc ours theirs (mergeOptsOfOpt mopts)).1 < 0) ∧
    (0 ≤ (E.xdl_merge anc ours theirs (mergeOptsOfOpt mopts)).1 →
      bare_xdiff_merge_sync E anc ours theirs mopts =
        Except.ok
          { conflict :=
              decide (0 < (E.xdl_merge anc ours theirs (mergeOptsOfOpt mopts)).1),
            output := (E.xdl_merge anc ours theirs (mergeOptsOfOpt mopts)).2 }) := by
  refine ⟨?_, ?_, ?_, ?_⟩
  · by_cases hc : (E.xdl_diff a b (diffFlagsOfOpt dopts) 3).1 < 0 <;>
      simp [bare_xdiff_diff_sync, hc]
  · intro hnn
    have hc : ¬ (E.xdl_diff a b (diffFlagsOfOpt dopts) 3).1 < 0 := by omega
    simp [bare_xdiff_diff_sync, hc]
  · by_cases hc : (E.xdl_merge anc ours theirs (mergeOptsOfOpt mopts)).1 < 0 <;>
      simp [bare_xdiff_merge_sync, hc]
  · intro hnn
    have hc : ¬ (E.xdl_merge anc ours theirs (mergeOptsOfOpt mopts)).1 < 0 := by
      omega
    simp [bare_xdiff_merge_sync, hc]

/-- C6 witness: a failing engine makes both sync paths raise; a succeeding
engine makes diffSync return its output directly. -/
theorem c6_sync_raises_iff_engine_fails_witness :
    bare_xdiff_diff_sync failingEngine [1] [2] none =
      Except.error "xdl_diff failed" ∧
    bare_xdiff_diff_sync witnessEngine [1] [2] none =
      Except.ok (concatChunks [[1], [2]]) ∧
    bare_xdiff_merge_sync failingEngine [1] [2] [3] none =
      Except.error "xdl_merge failed" :=
  ⟨(c6_sync_raises_iff_engine_fails failingEngine [1] [2] [] [] [] none
      none).1.mpr (by decide),
   (c6_sync_raises_iff_engine_fails witnessEngine [1] [2] [] [] [] none
      none).2.1 (by decide),
   (c6_sync_raises_iff_engine_fails failingEngine [] [] [1] [2] [3] none
      none).2.2.1.mpr (by decide)⟩

/-- C7: option decoding never raises — it is a total function of the
configuration value.  An absent, null or undefined configuration yields all
defaults, and any recognised field whose runtime type does not match the
expected primitive, any enumeration string outside the closed set, and any
non-positive marker size is ignored: the parsed options equal those of the
configuration with that field omitted entirely. -/
theorem c7_malformed_options_ignored :
    parse_diff_options JSVal.null = 0 ∧
    parse_diff_options JSVal.undefined = 0 ∧
    diffFlagsOfOpt none = 0 ∧
    parse_merge_options JSVal.null = defaultMergeOpts ∧
    parse_merge_options JSVal.undefined = defaultMergeOpts ∧
    mergeOptsOfOpt none = defaultMergeOpts ∧
    (∀ fs k, diffFieldIgnored k (getProp (JSVal.obj fs) k) = true →
      parse_diff_options (JSVal.obj fs) =
        parse_diff_options (JSVal.obj (eraseKey fs k))) ∧
    (∀ fs k, mergeFieldIgnored k (getProp (JSVal.obj fs) k) = true →
      parse_merge_options (JSVal.obj fs) =
        parse_merge_options (JSVal.obj (eraseKey fs k))) :=
  ⟨rfl, rfl, rfl, rfl, rfl, rfl, parse_diff_options_eraseKey,
   parse_merge_options_eraseKey⟩

/-- C7 witness: a number-valued flag field and an unrecognised enumeration
string parse exactly as if omitted. -/
theorem c7_malformed_options_ignored_witness :
    parse_diff_options (JSVal.obj
        [("ignoreWhitespace", JSVal.number 1),
         ("algorithm", JSVal.str "foo")]) =
      parse_diff_options (JSVal.obj
        (eraseKey
          [("ignoreWhitespace", JSVal.number 1),
           ("algorithm", JSVal.str "foo")] "ignoreWhitespace")) ∧
    parse_merge_options (JSVal.obj [("level", JSVal.boolean true)]) =
      parse_merge_options (JSVal.obj
        (eraseKey [("level", JSVal.boolean true)] "level")) :=
  ⟨c7_malformed_options_ignored.2.2.2.2.2.2.1
     [("ignoreWhitespace", JSVal.number 1), ("algorithm", JSVal.str "foo")]
     "ignoreWhitespace" (by decide),
   c7_malformed_options_ignored.2.2.2.2.2.2.2
     [("level", JSVal.boolean true)] "level" (by decide)⟩

/-- C8: a `markerSize` field that is a number less than or equal to 0 is
ignored and the parsed merge options retain the default marker size 7; a
positive `markerSize` is stored as given. -/
theorem c8_marker_size_default_on_nonpositive (fs : List (String × JSVal))
    (n : Int) (h : getProp (JSVal.obj fs) "markerSize" = JSVal.number n) :
    (n ≤ 0 → (parse_merge_options (JSVal.obj fs)).marker_size = 7) ∧
    (0 < n → (parse_merge_options (JSVal.obj fs)).marker_size = n) := by
  rw [parse_merge_options_obj]
  constructor
  · intro hn
    have hlt : ¬ (0 < n) := by omega
    simp [h, markerSizeOf, js_get_value_int32, hlt]
  · intro hn
    simp [h, markerSizeOf, js_get_value_int32, hn]

/-- C8 witness: `markerSize := -3` keeps the default 7, `markerSize := 5`
is stored. -/
theorem c8_marker_size_default_on_nonpositive_witness :
    (parse_merge_options
        (JSVal.obj [("markerSize", JSVal.number (-3))])).marker_size = 7 ∧
    (parse_merge_options
        (JSVal.obj [("markerSize", JSVal.number 5)])).marker_size = 5 :=
  ⟨(c8_marker_size_default_on_nonpositive [("markerSize", JSVal.number (-3))]
      (-3) rfl).1 (by decide),
   (c8_marker_size_default_on_nonpositive [("markerSize", JSVal.number 5)]
      5 rfl).2 (by decide)⟩

/-- C9: async submissions deep-copy the host byte views before the
submitting call returns: the request's buffers equal the bytes read from
host memory at submission time, and the outcome delivered to the callback
is identical across any two post-submission host mutations. -/
theorem c9_deep_copy_noninterference (E : Engine) (hp : Heap)
    (v1 v2 v3 : HostView) (dopts mopts : Option JSVal)
    (m1 m2 : Heap → Heap) (status : Int) :
    asyncDiffRunFromHost E hp v1 v2 dopts m1 status =
      asyncDiffRunFromHost E hp v1 v2 dopts m2 status ∧
    asyncMergeRunFromHost E hp v1 v2 v3 mopts m1 status =
      asyncMergeRunFromHost E hp v1 v2 v3 mopts m2 status ∧
    (bare_xdiff_diff_submit (copyIn hp v1) (copyIn hp v2) dopts).buf1 =
      readBytes hp (v1.base + v1.off) v1.len ∧
    (bare_xdiff_diff_submit (copyIn hp v1) (copyIn hp v2) dopts).buf2 =
      readBytes hp (v2.base + v2.off) v2.len ∧
    (bare_xdiff_merge_submit (copyIn hp v1) (copyIn hp v2) (copyIn hp v3)
        mopts).buf3 =
      some (readBytes hp (v3.base + v3.off) v3.len) :=
  ⟨rfl, rfl, rfl, rfl, rfl⟩

/-- C10: on a successfully completed task the completion step chooses the
result shape solely by whether the request's third buffer pointer is
non-null: the callback receives the merge-shaped `{conflict, output}`
object if and only if `buf3` is non-null, and a plain result buffer
otherwise; the merge work step preserves `buf3`, so a merge task whose
third buffer pointer is null is delivered in the diff shape. -/
theorem c10_shape_solely_by_buf3 (r : Request) (status : Int)
    (hs : status = 0) (he : 0 ≤ r.error_code) :
    (isMergeShaped (bare_xdiff_after r status) = r.buf3.isSome) ∧
    (r.buf3 = none →
      bare_xdiff_after r status =
        CallbackInv.success (JSResult.buffer (r.result.getD []))) ∧
    (∀ E : Engine, (bare_xdiff_merge_work E r).buf3 = r.buf3) := by
  subst hs
  have hcond : ¬ ((0 : Int) ≠ 0 ∨ r.error_code < 0) := by omega
  have herr : ¬ r.error_code < 0 := by omega
  refine ⟨?_, ?_, ?_⟩
  · rcases hb : r.buf3 with _ | b3 <;>
      simp [bare_xdiff_after, hcond, herr, hb, isMergeShaped]
  · intro hb
    simp [bare_xdiff_after, hcond, herr, hb]
  · intro E
    by_cases hm :
      (E.xdl_merge r.buf1 r.buf2 (r.buf3.getD []) (mergeParamsOf r)).1 < 0 <;>
        simp [bare_xdiff_merge_work, hm]

/-- C10 witness: a request with a null third buffer pointer and a
successful completion is delivered as a plain buffer. -/
theorem c10_shape_solely_by_buf3_witness :
    isMergeShaped (bare_xdiff_after zeroRequest 0) = zeroRequest.buf3.isSome ∧
    bare_xdiff_after zeroRequest 0 =
      CallbackInv.success (JSResult.buffer (zeroRequest.result.getD [])) :=
  ⟨(c10_shape_solely_by_buf3 zeroRequest 0 rfl (by decide)).1,
   (c10_shape_solely_by_buf3 zeroRequest 0 rfl (by decide)).2.1 rfl⟩

end BareXdiff
